import Mathlib

/-!
Verification development for the building-types demo repository
(src/Content/js/building-types.js and src/Content/js/data-adapter.js).

The JavaScript source is shallowly embedded: DOM/SVG class state becomes
explicit record fields, stateful methods become pure state-passing
functions, and JavaScript values handled by the data adapter become an
inductive JSVal type with member access returning Except (a thrown
TypeError is an error value).
-/

/- ==========================================================================
   Marker visibility engine (SpaceView.initMarkerVisibility,
   SpaceView.updateMarkerVisibility in building-types.js)
   ========================================================================== -/

/-- Identifier of the designated non-interactive background group
(APP_CONFIG.svg.buildingRoof = "school-roof"). -/
def buildingRoof : String := "school-roof"

/-- One child element of a marker group. Only the tag name and the two
visibility classes touched by initMarkerVisibility are modelled; classList
manipulation of a single class is modelled as a Boolean field. -/
structure SvgChild where
  tagName : String
  childVisible : Bool
  childHidden : Bool
deriving DecidableEq

/-- One direct child element of the marker container. The classes
gh-marker-group and gh-marker-dimmed are the only classes the embedded
functions read or write on these elements. -/
structure SvgGroup where
  id : String
  tagName : String
  markerClass : Bool
  dimmed : Bool
  children : List SvgChild
deriving DecidableEq

/-- The marker container is modelled by the list of its direct children in
document order. In the source the container is the element with id
K-12-Pins-Roof-Closed, falling back to the root svg element; both
resolutions yield a child list, which is what this type captures. -/
abbrev MarkerDoc : Type := List SvgGroup

/-- Processes the children of one marker group exactly as the loop in
initMarkerVisibility does: among the children with tag name g, the first
gets gh-child-visible (and loses gh-child-hidden) and every later one gets
gh-child-hidden (and loses gh-child-visible). Children with another tag are
left untouched. The flag seenFirst records whether a g child has already
been encountered. -/
def initChildren : List SvgChild → Bool → List SvgChild
  | [], _ => []
  | c :: rest, seenFirst =>
    if c.tagName = "g" then
      if seenFirst then
        { c with childHidden := true, childVisible := false } :: initChildren rest true
      else
        { c with childVisible := true, childHidden := false } :: initChildren rest true
    else
      c :: initChildren rest seenFirst

/-- SpaceView.initMarkerVisibility: every direct g child of the container,
except the school-roof group, is tagged with gh-marker-group and has its
own g children partitioned into one visible first child and hidden rest. -/
def initMarkerVisibility (doc : MarkerDoc) : MarkerDoc :=
  doc.map fun group =>
    if group.tagName = "g" ∧ group.id ≠ buildingRoof then
      { group with
          markerClass := true
          children := initChildren group.children false }
    else
      group

/-- SpaceView.updateMarkerVisibility applied to an available markers
document. The JavaScript guard is `if (activeId && group.id !== activeId)`:
activeId must be truthy, so the empty string behaves exactly like null and
removes the dimmed class everywhere. -/
def updateMarkerVisibility (doc : MarkerDoc) (activeId : Option String) : MarkerDoc :=
  doc.map fun group =>
    if group.tagName = "g" ∧ group.id ≠ buildingRoof then
      match activeId with
      | some a =>
          if a ≠ "" ∧ group.id ≠ a then
            { group with dimmed := true }
          else
            { group with dimmed := false }
      | none => { group with dimmed := false }
    else
      group

/-- A whole sequence of setActive calls, oldest first. -/
def applySetActiveSeq (doc : MarkerDoc) (seq : List (Option String)) : MarkerDoc :=
  seq.foldl updateMarkerVisibility doc

/-- The groups the engine manages: direct g children other than the roof. -/
def managedGroups (doc : MarkerDoc) : List SvgGroup :=
  doc.filter fun g => g.tagName = "g" ∧ g.id ≠ buildingRoof

/-- The ids of the managed groups. -/
def managedIds (doc : MarkerDoc) : List String :=
  (managedGroups doc).map (·.id)

/-- The dimmed-class state of the managed groups, paired with their ids. -/
def dimmedView (doc : MarkerDoc) : List (String × Bool) :=
  (managedGroups doc).map fun g => (g.id, g.dimmed)

/-- The dimmed value updateMarkerVisibility assigns to a managed group with
the given id. -/
def dimClassFn (activeId : Option String) (id : String) : Bool :=
  match activeId with
  | some a => a ≠ "" ∧ id ≠ a
  | none => false

/- ==========================================================================
   Application data model (SpaceModel and the data shapes produced by
   DataAdapter.transformSpaces)
   ========================================================================== -/

/-- One entry of the systemEquipment list of a space. -/
structure EquipmentItem where
  id : String
  title : String
  slideImg : String
  body : String
  productDetailsUrl : String
  bgImg : String
deriving DecidableEq

/-- One space object as consumed by building-types.js. -/
structure Space where
  id : String
  name : String
  systemName : String
  markerImg : String
  systemEquipment : List EquipmentItem
deriving DecidableEq

/-- The state held by SpaceModel. markerData is initialised to an empty
object and never written by the embedded code; it is kept as a field so
that frame conditions cover every constructor field. -/
structure ModelState where
  spaces : List Space
  pageMetadata : Option String
  currentSpaceId : Option String
  currentTab : String
  currentProductIndex : Int
  markerData : List (String × String)
deriving DecidableEq

/-- SpaceModel.getSpace: Array.prototype.find over the space list. -/
def ModelState.getSpace (m : ModelState) (id : String) : Option Space :=
  m.spaces.find? fun s => s.id = id

/-- SpaceModel.getCurrentSpace: getSpace at the current id; with a null
current id the find misses every string id, so the result is none. -/
def ModelState.getCurrentSpace (m : ModelState) : Option Space :=
  match m.currentSpaceId with
  | none => none
  | some id => m.getSpace id

/-- SpaceModel.setCurrentSpace. -/
def ModelState.setCurrentSpace (m : ModelState) (id : String) : ModelState :=
  { m with currentSpaceId := some id }

/- ==========================================================================
   View state touched by marker selection (SpaceView.replaceLandingSvg and
   the markers object wrapping the marker document)
   ========================================================================== -/

/-- Class and data-attribute state of the overlay object element. -/
structure OverlayState where
  isVisible : Bool
  dataAttr : Option String
deriving DecidableEq

/-- The slice of SpaceView state the embedded operations read and write.
markersDoc is the contentDocument of the markers object element; none
models a document that has not loaded yet. -/
structure ViewState where
  overlay : OverlayState
  markersLayerHidden : Bool
  markersDoc : Option MarkerDoc
deriving DecidableEq

/-- SpaceView.replaceLandingSvg: show the overlay with the given marker
image as its data source and hide the plain markers layer. -/
def replaceLandingSvg (v : ViewState) (markerImg : String) : ViewState :=
  { v with
      overlay := { isVisible := true, dataAttr := some markerImg }
      markersLayerHidden := true }

/-- SpaceView.updateMarkerVisibility as it runs against the live DOM: if
the markers object has no contentDocument the call logs and returns
without touching anything. -/
def viewUpdateMarkerVisibility (v : ViewState) (activeId : Option String) : ViewState :=
  match v.markersDoc with
  | none => v
  | some doc => { v with markersDoc := some (updateMarkerVisibility doc activeId) }

/- ==========================================================================
   Controller (SpaceController.handleMarkerClick, nextProduct, prevProduct
   and the dot-click handler installed by renderProductCarousel)
   ========================================================================== -/

/-- The combined application state the marker-click path touches. -/
structure AppState where
  model : ModelState
  view : ViewState
deriving DecidableEq

/-- SpaceController.handleMarkerClick: an unknown id logs an error and
abandons the action before any mutation; a known id records the selection,
swaps in the overlay and dims the other markers. -/
def handleMarkerClick (st : AppState) (spaceId : String) : AppState :=
  match st.model.getSpace spaceId with
  | none => st
  | some space =>
    let model := st.model.setCurrentSpace spaceId
    let view := replaceLandingSvg st.view space.markerImg
    let view := viewUpdateMarkerVisibility view (some spaceId)
    { model := model, view := view }

/-- SpaceController.nextProduct. The index is a JavaScript number holding
integer values, modelled as Int. -/
def nextProduct (m : ModelState) : ModelState :=
  match m.getCurrentSpace with
  | none => m
  | some space =>
    if space.systemEquipment.length = 0 then m
    else
      let idx : Int := m.currentProductIndex + 1
      let idx := if idx ≥ (space.systemEquipment.length : Int) then 0 else idx
      { m with currentProductIndex := idx }

/-- SpaceController.prevProduct. -/
def prevProduct (m : ModelState) : ModelState :=
  match m.getCurrentSpace with
  | none => m
  | some space =>
    if space.systemEquipment.length = 0 then m
    else
      let idx : Int := m.currentProductIndex - 1
      let idx := if idx < 0 then (space.systemEquipment.length : Int) - 1 else idx
      { m with currentProductIndex := idx }

/-- The outcome of the dot-click handler body installed by
SpaceView.renderProductCarousel: the arrow function captures this = the
SpaceView instance, and SpaceView never has a model property (only the
SpaceController constructor assigns one), so the assignment
this.model.currentProductIndex = idx throws a TypeError before any state
is touched and the call to updateProductVisibility is never reached. -/
def dotClickError : Except String Unit :=
  .error "TypeError: cannot set currentProductIndex of undefined"

/-- Effect of a dot click on the model: the thrown TypeError aborts the
handler, the browser only reports it, and the model keeps its previous
index. The pair carries the unchanged model and the thrown outcome. -/
def dotClick (m : ModelState) (_idx : Int) : ModelState × Except String Unit :=
  (m, dotClickError)

/- ==========================================================================
   Marker resolution and interaction binding
   (SpaceController.attachSvgHandlers, attachInteraction)
   ========================================================================== -/

/-- One element of the markers document as seen by attachSvgHandlers. The
key identifies the element (document identity); id is the DOM id property,
which is the empty string for elements without an id attribute;
dataSpaceId is the data-space-id attribute, none when absent. -/
structure SvgElem where
  key : Nat
  id : String
  tagName : String
  dataSpaceId : Option String
deriving DecidableEq

/-- document.getElementById: the first element with the given id; with the
empty string it matches nothing. -/
def getById (doc : List SvgElem) (id : String) : Option SvgElem :=
  if id = "" then none else doc.find? fun e => e.id = id

/-- The manual fallback used in attachSvgHandlers: scan all g elements for
one whose id property equals the wanted id. Unlike getElementById this
does match the empty string. -/
def findGroupById (doc : List SvgElem) (id : String) : Option SvgElem :=
  (doc.filter fun e => e.tagName = "g").find? fun g => g.id = id

/-- getElementById followed by the manual g scan, the lookup pair the
source repeats for the exact id and for the singular fallback. -/
def lookupById (doc : List SvgElem) (id : String) : Option SvgElem :=
  match getById doc id with
  | some el => some el
  | none => findGroupById doc id

/-- JavaScript String.prototype.endsWith with the one-character suffix
used by the source: true exactly when the last character is s. -/
def endsInS (s : String) : Bool := s.data.getLast? = some 's'

/-- JavaScript slice(0, -1): the string without its last character. -/
def dropLastChar (s : String) : String := String.mk s.data.dropLast

/-- The per-space resolution of attachSvgHandlers step 2: exact id lookup
(getElementById, then the manual g scan), then, only for ids ending in s,
the same lookup for the singular form. -/
def resolveSpaceElement (doc : List SvgElem) (spaceId : String) : Option SvgElem :=
  match lookupById doc spaceId with
  | some el => some el
  | none =>
    if endsInS spaceId then lookupById doc (dropLastChar spaceId)
    else none

/-- Accumulator of the binding passes: bindings made so far (element key
paired with the space id passed to attachInteraction) and the keys of the
elements already processed. -/
structure BindAcc where
  bindings : List (Nat × String)
  processed : List Nat
deriving DecidableEq

/-- One step of pass 1 of attachSvgHandlers: an element carrying a truthy
data-space-id attribute is bound to that attribute value and marked
processed; a falsy (empty) attribute value is skipped entirely. -/
def dynStep (acc : BindAcc) (e : SvgElem) : BindAcc :=
  match e.dataSpaceId with
  | some v =>
      if v = "" then acc
      else { bindings := acc.bindings ++ [(e.key, v)], processed := acc.processed ++ [e.key] }
  | none => acc

/-- Pass 1 of attachSvgHandlers over the document in order. -/
def dynamicPass (doc : List SvgElem) : BindAcc :=
  doc.foldl dynStep { bindings := [], processed := [] }

/-- One step of pass 2 of attachSvgHandlers: resolve an element for the
space and bind it unless an earlier pass already processed it. -/
def spaceStep (doc : List SvgElem) (acc : BindAcc) (space : Space) : BindAcc :=
  match resolveSpaceElement doc space.id with
  | some el =>
      if el.key ∈ acc.processed then acc
      else { bindings := acc.bindings ++ [(el.key, space.id)], processed := acc.processed ++ [el.key] }
  | none => acc

/-- Pass 2 of attachSvgHandlers over the spaces in model order. -/
def spacesPass (doc : List SvgElem) (spaces : List Space) (init : BindAcc) : BindAcc :=
  spaces.foldl (spaceStep doc) init

/-- The interaction bindings attachSvgHandlers produces: element key paired
with the space id whose click handler attachInteraction installs on it. -/
def attachSvgHandlers (doc : List SvgElem) (spaces : List Space) : List (Nat × String) :=
  (spacesPass doc spaces (dynamicPass doc)).bindings

/- ==========================================================================
   JavaScript value model for the data adapter (data-adapter.js)
   ========================================================================== -/

/-- Untyped JavaScript values as far as the adapter inspects or produces
them. Numbers in the payload are integral, so Int stands in for the
number type; fn is a function value, of which the adapter can produce
exactly one, the Object constructor inherited by the override lookup in
generateId. -/
inductive JSVal where
  | null
  | undefined
  | bool (b : Bool)
  | num (n : Int)
  | str (s : String)
  | arr (elems : List JSVal)
  | obj (fields : List (String × JSVal))
  | fn

/-- JavaScript truthiness for the modelled values. -/
def truthy : JSVal → Bool
  | .null => false
  | .undefined => false
  | .bool b => b
  | .num n => n ≠ 0
  | .str s => s ≠ ""
  | .arr _ => true
  | .obj _ => true
  | .fn => true

/-- Member access v.k. Reading a member of null or undefined throws a
TypeError; objects yield the first field with that name or undefined;
arrays and strings expose length; any other access yields undefined. -/
def getField : JSVal → String → Except String JSVal
  | .null, k => .error ("TypeError: cannot read " ++ k ++ " of null")
  | .undefined, k => .error ("TypeError: cannot read " ++ k ++ " of undefined")
  | .obj fields, k => .ok (((fields.find? fun f => f.1 = k).map fun f => f.2).getD .undefined)
  | .arr elems, k => .ok (if k = "length" then .num elems.length else .undefined)
  | .str s, k => .ok (if k = "length" then .num s.length else .undefined)
  | _, _ => .ok .undefined

/-- Index access v[i]. Arrays yield the element or undefined; objects look
up the numeral as a field name; strings yield a one-character string;
null and undefined throw. -/
def getIndex : JSVal → Nat → Except String JSVal
  | .null, _ => .error "TypeError: cannot index null"
  | .undefined, _ => .error "TypeError: cannot index undefined"
  | .arr elems, i => .ok (elems.getD i .undefined)
  | .obj fields, i => .ok (((fields.find? fun f => f.1 = toString i).map fun f => f.2).getD .undefined)
  | .str s, i => .ok (if h : i < s.data.length then .str (String.mk [s.data.get ⟨i, h⟩]) else .undefined)
  | _, _ => .ok .undefined

/-- The JavaScript or-else operator a || b restricted to the values the
adapter feeds it. -/
def jsOr (a b : JSVal) : JSVal := if truthy a then a else b

/-- The strict comparison v === 0 used by the transform guard. -/
def jsStrictEqZero (v : JSVal) : Bool :=
  match v with
  | .num n => n = 0
  | _ => false

/-- The comparison v > 0 applied to length reads. The lengths produced by
the modelled member access are numbers or undefined; numeric coercion of
other operand shapes is outside the payload domain and yields false. -/
def jsGtZero (v : JSVal) : Bool :=
  match v with
  | .num n => 0 < n
  | _ => false

/-- Array.isArray. -/
def isJsArray : JSVal → Bool
  | .arr _ => true
  | _ => false

/- ==========================================================================
   DataAdapter.generateId and its slug pipeline
   ========================================================================== -/

/-- Membership in the regex class [a-z0-9], tested after lower-casing. -/
def isSlugChar (c : Char) : Bool := ('a' ≤ c ∧ c ≤ 'z') ∨ ('0' ≤ c ∧ c ≤ '9')

/-- The replace of every maximal run of characters outside [a-z0-9] with a
single hyphen. The flag prevHyphen is true while inside such a run, after
its hyphen has been emitted. -/
def collapseRuns : Bool → List Char → List Char
  | _, [] => []
  | prevHyphen, c :: rest =>
    if isSlugChar c then c :: collapseRuns false rest
    else if prevHyphen then collapseRuns true rest
    else '-' :: collapseRuns true rest

/-- Removes one leading hyphen, as the anchored alternative of the regex
replace(/^-|-$/g) does. -/
def removeLeadingHyphen (l : List Char) : List Char :=
  match l with
  | '-' :: t => t
  | _ => l

/-- The whole trim replace(/^-|-$/g): one leading and one trailing hyphen
are removed. -/
def trimEdgeHyphens (l : List Char) : List Char :=
  (removeLeadingHyphen (removeLeadingHyphen l).reverse).reverse

/-- Values the expression SPACE_ID_OVERRIDES[slug] || slug can produce:
a string, or the built-in Object constructor function that the property
read inherits through the prototype chain of the object literal. -/
inductive GeneratedId where
  | str (s : String)
  | objectConstructorFn
deriving DecidableEq

/-- The expression SPACE_ID_OVERRIDES[slug] || slug. The property read on
the object literal traverses the prototype chain: besides the single own
entry school-gym, the key constructor yields the inherited, truthy Object
constructor. Slugs consist only of lowercase letters, digits and hyphens,
and constructor is the sole Object.prototype property name of that shape
(every other one contains an uppercase letter or underscores), so every
other slug misses both the literal and the prototype and falls through to
itself. -/
def applyOverrides (slug : String) : GeneratedId :=
  if slug = "school-gym" then .str "gym"
  else if slug = "constructor" then .objectConstructorFn
  else .str slug

/-- The slug before the override lookup: lower-case, collapse runs of
non-alphanumerics, trim one hyphen per edge. -/
def rawSlug (name : String) : String :=
  String.mk (trimEdgeHyphens (collapseRuns false (name.data.map Char.toLower)))

/-- DataAdapter.generateId on an actual string argument that already
passed the truthiness guard. -/
def generateIdStr (name : String) : GeneratedId :=
  applyOverrides (rawSlug name)

/-- DataAdapter.generateId. The argument is a display name or undefined;
a falsy name (undefined, null or the empty string, with none standing for
the missing argument) yields unknown-space. -/
def generateId (name : Option String) : GeneratedId :=
  match name with
  | none => .str "unknown-space"
  | some s => if s = "" then .str "unknown-space" else generateIdStr s

/-- DataAdapter.generateId applied to an arbitrary JavaScript value, as
transformSpaces does: a falsy value yields unknown-space, a truthy string
goes through the slug pipeline (whose override lookup can yield the
inherited Object constructor), and any other truthy value makes the
toLowerCase call throw. -/
def jsGenerateId (name : JSVal) : Except String GeneratedId :=
  if truthy name then
    match name with
    | .str s => .ok (generateIdStr s)
    | _ => .error "TypeError: name.toLowerCase is not a function"
  else
    .ok (.str "unknown-space")

/-- The source text that template-literal coercion of the built-in Object
constructor yields. ECMAScript leaves the exact characters of a built-in
function source implementation-defined, so this constant stands for the
engine string; no claim evaluates it. -/
def objectConstructorSourceText : String := "function Object() [native code]"

/-- JavaScript string coercion of a generated id, as the template
literals in transformSpaces apply it: a string id passes through, the
inherited constructor coerces to its engine-defined source text. -/
def generatedIdText : GeneratedId → String
  | .str s => s
  | .objectConstructorFn => objectConstructorSourceText

/-- A generated id as the raw JavaScript value stored in the id field. -/
def generatedIdVal : GeneratedId → JSVal
  | .str s => .str s
  | .objectConstructorFn => .fn

/- ==========================================================================
   DataAdapter.transform and its helpers
   ========================================================================== -/

/-- The strict comparison v === "1" used when classifying action buttons. -/
def jsStrictEqStrOne (v : JSVal) : Bool :=
  match v with
  | .str s => s = "1"
  | _ => false

/-- K12_DEFAULTS.heroBg. -/
def heroBgDefault : String := "./Content/imgs/k-12-hero-bg.png"

/-- K12_DEFAULTS.mapImage. -/
def mapImageDefault : String := "./Content/imgs/k-12-map.svg"

/-- K12_DEFAULTS.markersImage. -/
def markersImageDefault : String := "./Content/imgs/k-12-markers.svg"

/-- K12_DEFAULTS.icons.primary. -/
def iconPrimaryDefault : String := "./Content/imgs/icons/select-a-space.svg"

/-- K12_DEFAULTS.icons.secondary. -/
def iconSecondaryDefault : String := "./Content/imgs/icons/share.svg"

/-- Error-propagating map over a list, the effect order of
Array.prototype.map under exceptions. -/
def mapExcept (f : JSVal → Except String JSVal) : List JSVal → Except String (List JSVal)
  | [] => .ok []
  | x :: xs => do
    let y ← f x
    let ys ← mapExcept f xs
    .ok (y :: ys)

/-- DataAdapter.extractImageUrl: the Url of the first entry of a non-empty
image array, otherwise null. -/
def extractImageUrl (imageArray : JSVal) : Except String JSVal := do
  if truthy imageArray then
    let len ← getField imageArray "length"
    if jsGtZero len then
      let first ← getIndex imageArray 0
      let url ← getField first "Url"
      if truthy url then .ok url else .ok .null
    else
      .ok .null
  else
    .ok .null

/-- DataAdapter.transformActions on one action entry. -/
def transformAction (action : JSVal) : Except String JSVal := do
  let ty ← getField action "Type"
  let actionType := if jsStrictEqStrOne ty then "primary" else "secondary"
  let label ← getField action "Title"
  let act ← getField action "Action"
  .ok (.obj
    [("type", .str actionType),
     ("label", label),
     ("iconClass", .str (if actionType = "primary" then iconPrimaryDefault else iconSecondaryDefault)),
     ("actionId", .str (if jsStrictEqStrOne act then "select-space-btn" else "share-btn"))])

/-- DataAdapter.transformActions: a missing or non-array argument yields
the empty list. -/
def transformActions (actions : JSVal) : Except String JSVal :=
  match actions with
  | .arr xs => do
    let ys ← mapExcept transformAction xs
    .ok (.arr ys)
  | _ => .ok (.arr [])

/-- The conditional (x && x.length > 0) ? x[0] : {} shared by the
page-metadata, overview and narrative helpers. -/
def firstOrEmptyObj (v : JSVal) : Except String JSVal := do
  if truthy v then
    let len ← getField v "length"
    if jsGtZero len then getIndex v 0 else .ok (.obj [])
  else
    .ok (.obj [])

/-- DataAdapter.transformPageMetadata. -/
def transformPageMetadata (root : JSVal) : Except String JSVal := do
  let heroSection ← getField root "HeroSection"
  let hero ← firstOrEmptyObj heroSection
  let title ← getField root "Title"
  let heroTitle ← getField hero "Title"
  let heroDescription ← getField hero "Description"
  let actionButton ← getField hero "ActionButton"
  let actions ← transformActions actionButton
  .ok (.obj
    [("title", jsOr title (.str "K-12 Education")),
     ("heroSection", .obj
       [("backgroundImage", .str heroBgDefault),
        ("title", jsOr heroTitle (.str "")),
        ("description", jsOr heroDescription (.str "")),
        ("actions", actions)]),
     ("modalMapImage", .str mapImageDefault),
     ("modalMarkersImage", .str markersImageDefault)])

/-- DataAdapter.transformOverview. -/
def transformOverview (overviewArray : JSVal) (spaceId : String) : Except String JSVal := do
  let overview ← firstOrEmptyObj overviewArray
  let title ← getField overview "Title"
  let body ← getField overview "Body"
  let backgroundImage ← getField overview "BackgroundImage"
  let bg ← extractImageUrl backgroundImage
  .ok (.obj
    [("title", jsOr title (.str "")),
     ("body", jsOr body (.str "")),
     ("bgImg", jsOr bg (.str ("./Content/imgs/Space Pins and Labels with Popover/" ++ spaceId ++ "-overview.png")))])

/-- DataAdapter.transformEquipment on one item. -/
def transformEquipmentItem (item : JSVal) : Except String JSVal := do
  let id ← getField item "Id"
  let title ← getField item "Title"
  let sliderImage ← getField item "SliderImage"
  let slide ← extractImageUrl sliderImage
  let body ← getField item "Body"
  let productUrl ← getField item "ProductUrl"
  let backgroundImage ← getField item "BackgroundImage"
  let bg ← extractImageUrl backgroundImage
  .ok (.obj
    [("id", id),
     ("title", title),
     ("slideImg", jsOr slide (.str "./Content/imgs/prd-1.png")),
     ("body", body),
     ("productDetailsUrl", jsOr productUrl (.str "#")),
     ("bgImg", jsOr bg (.str "./Content/imgs/RooftopUnits.png"))])

/-- DataAdapter.transformEquipment: a missing or non-array argument yields
the empty list. -/
def transformEquipment (equipmentArray : JSVal) : Except String JSVal :=
  match equipmentArray with
  | .arr xs => do
    let ys ← mapExcept transformEquipmentItem xs
    .ok (.arr ys)
  | _ => .ok (.arr [])

/-- DataAdapter.transformNarrative. -/
def transformNarrative (narrativeArray : JSVal) (_spaceId : String) : Except String JSVal := do
  let narrative ← firstOrEmptyObj narrativeArray
  let title ← getField narrative "Title"
  let body ← getField narrative "Body"
  let backgroundImage ← getField narrative "BackgroundImage"
  let img ← extractImageUrl backgroundImage
  .ok (.obj
    [("title", jsOr title (.str "")),
     ("body", jsOr body (.str "")),
     ("img", jsOr img (.str heroBgDefault))])

/-- DataAdapter.transformSpaces on one space entry. -/
def transformSpace (space : JSVal) : Except String JSVal := do
  let title ← getField space "Title"
  let name ← getField space "Name"
  let spaceName := jsOr title name
  let generatedId ← jsGenerateId spaceName
  let description ← getField space "Description"
  let overviewArray ← getField space "Overview"
  let overview ← transformOverview overviewArray (generatedIdText generatedId)
  let equipmentArray ← getField space "SystemEquipment"
  let equipment ← transformEquipment equipmentArray
  let narrativeArray ← getField space "DesignNarrative"
  let narrative ← transformNarrative narrativeArray (generatedIdText generatedId)
  .ok (.obj
    [("id", generatedIdVal generatedId),
     ("name", spaceName),
     ("systemName", jsOr description name),
     ("markerImg", .str ("./Content/imgs/Space Pins and Labels with Popover/"
        ++ generatedIdText generatedId ++ ".svg")),
     ("overview", overview),
     ("systemEquipment", equipment),
     ("designNarrative", narrative)])

/-- DataAdapter.transformSpaces: a missing or non-array argument yields
the empty list. -/
def transformSpaces (spaces : JSVal) : Except String JSVal :=
  match spaces with
  | .arr xs => do
    let ys ← mapExcept transformSpace xs
    .ok (.arr ys)
  | _ => .ok (.arr [])

/-- The minimal valid structure returned on any transformation error. -/
def emptyStructure : JSVal := .obj [("pageMetadata", .obj []), ("spaces", .arr [])]

/-- The body of DataAdapter.transform inside the try block: the guard
condition is !apiResponse || !apiResponse.value || value.length === 0,
with member access throwing on null and undefined. -/
def transformBody (apiResponse : JSVal) : Except String JSVal := do
  if truthy apiResponse then
    let value ← getField apiResponse "value"
    if truthy value then
      let len ← getField value "length"
      if jsStrictEqZero len then .error "Invalid API response format"
      else
        let root ← getIndex value 0
        let pageMetadata ← transformPageMetadata root
        let spacesField ← getField root "Spaces"
        let spaces ← transformSpaces spacesField
        .ok (.obj [("pageMetadata", pageMetadata), ("spaces", spaces)])
    else
      .error "Invalid API response format"
  else
    .error "Invalid API response format"

/-- DataAdapter.transform: the catch block maps every thrown error to the
minimal valid structure, so the function is total for its caller. -/
def transform (apiResponse : JSVal) : JSVal :=
  match transformBody apiResponse with
  | .ok v => v
  | .error _ => emptyStructure

/- ==========================================================================
   SpaceService.fetchData (building-types.js)
   ========================================================================== -/

/-- Outcome of the single startup fetch: a rejected network request, or a
response with its ok flag and the result of parsing its body as JSON. -/
inductive FetchOutcome where
  | networkError (msg : String)
  | response (ok : Bool) (jsonResult : Except String JSVal)

/-- SpaceService.fetchData over the outcome of its one fetch, with the
DataAdapter present as it is in this repository: any failure path is
caught and degrades to the empty structure, and the sole success path
hands the parsed body to DataAdapter.transform. -/
def fetchData (outcome : FetchOutcome) : JSVal :=
  match outcome with
  | .networkError _ => emptyStructure
  | .response ok jsonResult =>
    if ok then
      match jsonResult with
      | .ok raw => transform raw
      | .error _ => emptyStructure
    else
      emptyStructure

/- ==========================================================================
   Specification-side restatement of the id generation rule. These two
   definitions follow the wording of the spec (lower-case, replace runs,
   trim leading and trailing hyphens, apply the override table) and exist
   to be compared with the source-derived generateId.
   ========================================================================== -/

/-- Trim as the spec words it: remove all leading and all trailing
hyphens. -/
def specTrimHyphens (l : List Char) : List Char :=
  ((l.dropWhile fun c => c = '-').reverse.dropWhile fun c => c = '-').reverse

/-- The manual override table as the spec words it: a pure table with the
single entry school-gym to gym. -/
def specApplyOverrides (slug : String) : String :=
  if slug = "school-gym" then "gym" else slug

/-- Modelled from the spec wording of the slug rule: lower-case the name,
replace every maximal run of non-alphanumeric characters with a single
hyphen, trim leading and trailing hyphens, then apply the override table;
an empty or missing name yields unknown-space. -/
def specGenerateId (name : Option String) : String :=
  match name with
  | none => "unknown-space"
  | some s =>
    if s = "" then "unknown-space"
    else specApplyOverrides (String.mk (specTrimHyphens (collapseRuns false (s.data.map Char.toLower))))

/- ==========================================================================
   Lemmas about the marker visibility engine
   ========================================================================== -/

/-- The per-group action of updateMarkerVisibility, written with the
assigned dimmed value factored out. -/
def applyDimClass (activeId : Option String) (g : SvgGroup) : SvgGroup :=
  if g.tagName = "g" ∧ g.id ≠ buildingRoof then
    { g with dimmed := dimClassFn activeId g.id }
  else
    g

theorem updateMarkerVisibility_eq_map (doc : MarkerDoc) (a : Option String) :
    updateMarkerVisibility doc a = doc.map (applyDimClass a) := by
  unfold updateMarkerVisibility
  apply List.map_congr_left
  intro g _
  by_cases hc : g.tagName = "g" ∧ g.id ≠ buildingRoof
  · simp only [hc, if_true, applyDimClass]
    cases a with
    | none => simp [dimClassFn]
    | some v =>
      by_cases hv : v ≠ "" ∧ g.id ≠ v
      · simp [hv, dimClassFn]
      · simp [hv, dimClassFn]
  · simp [applyDimClass, hc]

@[simp]
theorem applyDimClass_id (a : Option String) (g : SvgGroup) :
    (applyDimClass a g).id = g.id := by
  unfold applyDimClass
  by_cases hc : g.tagName = "g" ∧ g.id ≠ buildingRoof <;> simp [hc]

@[simp]
theorem applyDimClass_tagName (a : Option String) (g : SvgGroup) :
    (applyDimClass a g).tagName = g.tagName := by
  unfold applyDimClass
  by_cases hc : g.tagName = "g" ∧ g.id ≠ buildingRoof <;> simp [hc]

theorem applyDimClass_dimmed_of_managed (a : Option String) (g : SvgGroup)
    (h : g.tagName = "g" ∧ g.id ≠ buildingRoof) :
    (applyDimClass a g).dimmed = dimClassFn a g.id := by
  simp [applyDimClass, h]

theorem applyDimClass_of_not_managed (a : Option String) (g : SvgGroup)
    (h : ¬(g.tagName = "g" ∧ g.id ≠ buildingRoof)) :
    applyDimClass a g = g := by
  simp [applyDimClass, h]

theorem applyDimClass_applyDimClass (a b : Option String) (g : SvgGroup) :
    applyDimClass a (applyDimClass b g) = applyDimClass a g := by
  by_cases hc : g.tagName = "g" ∧ g.id ≠ buildingRoof
  · simp [applyDimClass, hc]
  · simp [applyDimClass, hc]

theorem updateMarkerVisibility_idem (doc : MarkerDoc) (a : Option String) :
    updateMarkerVisibility (updateMarkerVisibility doc a) a = updateMarkerVisibility doc a := by
  simp only [updateMarkerVisibility_eq_map, List.map_map]
  apply List.map_congr_left
  intro g _
  show applyDimClass a (applyDimClass a g) = applyDimClass a g
  exact applyDimClass_applyDimClass a a g

theorem managedGroups_map_applyDimClass (doc : MarkerDoc) (a : Option String) :
    managedGroups (doc.map (applyDimClass a)) = (managedGroups doc).map (applyDimClass a) := by
  unfold managedGroups
  induction doc with
  | nil => rfl
  | cons g rest ih =>
    simp only [List.map_cons, List.filter_cons]
    by_cases hc : g.tagName = "g" ∧ g.id ≠ buildingRoof
    · have hg : (applyDimClass a g).tagName = "g" ∧ (applyDimClass a g).id ≠ buildingRoof := by
        simpa using hc
      rw [if_pos (by simpa using hg), if_pos (by simpa using hc)]
      simp only [List.map_cons]
      exact congrArg _ ih
    · have hg : ¬((applyDimClass a g).tagName = "g" ∧ (applyDimClass a g).id ≠ buildingRoof) := by
        simpa using hc
      rw [if_neg (by simpa using hg), if_neg (by simpa using hc)]
      exact ih

theorem mem_managedGroups {doc : MarkerDoc} {g : SvgGroup} (h : g ∈ managedGroups doc) :
    g ∈ doc ∧ g.tagName = "g" ∧ g.id ≠ buildingRoof := by
  have := List.mem_filter.mp h
  exact ⟨this.1, by simpa using this.2⟩

theorem dimmedView_updateMarkerVisibility (doc : MarkerDoc) (a : Option String) :
    dimmedView (updateMarkerVisibility doc a)
      = (managedIds doc).map fun i => (i, dimClassFn a i) := by
  rw [updateMarkerVisibility_eq_map]
  unfold dimmedView managedIds
  rw [managedGroups_map_applyDimClass, List.map_map, List.map_map]
  apply List.map_congr_left
  intro g hg
  have hman := (mem_managedGroups hg).2
  show ((applyDimClass a g).id, (applyDimClass a g).dimmed) = (g.id, dimClassFn a g.id)
  rw [applyDimClass_id, applyDimClass_dimmed_of_managed a g hman]

theorem updateMarkerVisibility_overwrite (doc : MarkerDoc) (a b : Option String) :
    updateMarkerVisibility (updateMarkerVisibility doc a) b = updateMarkerVisibility doc b := by
  simp only [updateMarkerVisibility_eq_map, List.map_map]
  apply List.map_congr_left
  intro g _
  show applyDimClass b (applyDimClass a g) = applyDimClass b g
  exact applyDimClass_applyDimClass b a g

theorem dimmed_after_update {doc : MarkerDoc} {a : Option String} {g : SvgGroup}
    (h : g ∈ updateMarkerVisibility doc a) (hg : g.tagName = "g")
    (hroof : g.id ≠ buildingRoof) : g.dimmed = dimClassFn a g.id := by
  rw [updateMarkerVisibility_eq_map] at h
  obtain ⟨g₀, _, rfl⟩ := List.mem_map.mp h
  by_cases hman : g₀.tagName = "g" ∧ g₀.id ≠ buildingRoof
  · rw [applyDimClass_dimmed_of_managed a g₀ hman, applyDimClass_id]
  · rw [applyDimClass_of_not_managed a g₀ hman] at hg hroof ⊢
    exact absurd ⟨hg, hroof⟩ hman

/-- Groups outside the managed set keep an undimmed state across every
setActive call. -/
def unmanagedClean (doc : MarkerDoc) : Prop :=
  ∀ g ∈ doc, ¬(g.tagName = "g" ∧ g.id ≠ buildingRoof) → g.dimmed = false

theorem unmanagedClean_update {doc : MarkerDoc} (a : Option String)
    (h : unmanagedClean doc) : unmanagedClean (updateMarkerVisibility doc a) := by
  intro g hmem hnman
  rw [updateMarkerVisibility_eq_map] at hmem
  obtain ⟨g₀, hg₀, rfl⟩ := List.mem_map.mp hmem
  by_cases hman : g₀.tagName = "g" ∧ g₀.id ≠ buildingRoof
  · exact absurd (by simpa using hman) hnman
  · rw [applyDimClass_of_not_managed a g₀ hman] at hnman ⊢
    exact h g₀ hg₀ hnman

theorem unmanagedClean_applySeq {doc : MarkerDoc} (seq : List (Option String))
    (h : unmanagedClean doc) : unmanagedClean (applySetActiveSeq doc seq) := by
  induction seq generalizing doc with
  | nil => exact h
  | cons a rest ih => exact ih (unmanagedClean_update a h)

/-- The amended C1 statement: behaviour of setActive for non-empty active
ids distinct from the roof id, the full-restore of setActive null after
any call sequence from an undimmed document, idempotence, and the
characterisation of the resulting dimmed state as a function of the
managed ids and the activeId argument alone. -/
def C1Claim (c : MarkerDoc) (A B : String) (seq : List (Option String))
    (a : Option String) : Prop :=
  (∀ g ∈ updateMarkerVisibility (updateMarkerVisibility c (some A)) (some B),
      g.tagName = "g" →
        (g.id = A → g.dimmed = true) ∧
        (g.id = B → g.dimmed = false) ∧
        (g.id ≠ buildingRoof → g.id ≠ B → g.dimmed = true)) ∧
  ((∀ g ∈ c, g.dimmed = false) →
      ∀ g ∈ updateMarkerVisibility (applySetActiveSeq c seq) none, g.dimmed = false) ∧
  (updateMarkerVisibility (updateMarkerVisibility c a) a = updateMarkerVisibility c a) ∧
  (dimmedView (updateMarkerVisibility c a) = (managedIds c).map fun i => (i, dimClassFn a i))

/-- C1, corrected. After setActive(A) then setActive(B) for distinct
non-empty ids other than the roof id, group A is dimmed, group B is not,
every other marker group is dimmed; setActive(null) after any sequence
restores an initially undimmed document completely; repeated calls with
one activeId are idempotent; and the final dimmed state depends only on
the managed group ids and the activeId argument. The non-emptiness of the
ids is required because a falsy activeId is treated as null by the
source. -/
theorem spec_C1_amended (c : MarkerDoc) (A B : String) (seq : List (Option String))
    (a : Option String) (hAB : A ≠ B) (hB0 : B ≠ "")
    (hAr : A ≠ buildingRoof) (hBr : B ≠ buildingRoof) : C1Claim c A B seq a := by
  refine ⟨?_, ?_, updateMarkerVisibility_idem c a, dimmedView_updateMarkerVisibility c a⟩
  · intro g hmem hg
    refine ⟨?_, ?_, ?_⟩
    · intro hidA
      rw [dimmed_after_update hmem hg (hidA ▸ hAr), hidA]
      simp [dimClassFn, hB0, hAB]
    · intro hidB
      rw [dimmed_after_update hmem hg (hidB ▸ hBr), hidB]
      simp [dimClassFn]
    · intro hroof hne
      rw [dimmed_after_update hmem hg hroof]
      simp [dimClassFn, hB0, hne]
  · intro hclean g hmem
    have hnm : unmanagedClean (applySetActiveSeq c seq) :=
      unmanagedClean_applySeq seq (fun g hm _ => hclean g hm)
    rw [updateMarkerVisibility_eq_map] at hmem
    obtain ⟨g₀, hg₀, rfl⟩ := List.mem_map.mp hmem
    by_cases hman : g₀.tagName = "g" ∧ g₀.id ≠ buildingRoof
    · rw [applyDimClass_dimmed_of_managed none g₀ hman]
      rfl
    · rw [applyDimClass_of_not_managed none g₀ hman]
      exact hnm g₀ hg₀ hman

/-- A three-group markers document: two ordinary markers and the roof. -/
def c1Doc : MarkerDoc :=
  [⟨"lobby", "g", false, false, []⟩,
   ⟨"gym", "g", false, false, []⟩,
   ⟨"school-roof", "g", false, false, []⟩]

/-- Counterexample to C1 as stated. With A = lobby and B the empty string
(a legitimate id value: DOM ids of attribute-less elements and generateId
slugs of fully non-alphanumeric names are empty), setActive(A) followed by
setActive(B) leaves no marker dimmed at all, while the claim requires
marker group A to carry the dimmed class. -/
theorem spec_C1_counterexample :
    ("lobby" : String) ≠ "" ∧
    ((updateMarkerVisibility (updateMarkerVisibility c1Doc (some "lobby")) (some "")).all
      fun g => !g.dimmed) = true := by
  decide

theorem spec_C1_witness :
    (("lobby" : String) ≠ "gym" ∧ ("gym" : String) ≠ "" ∧
      ("lobby" : String) ≠ buildingRoof ∧ ("gym" : String) ≠ buildingRoof) ∧
    C1Claim c1Doc "lobby" "gym" [some "kitchen", none, some "lobby"] (some "gym") :=
  ⟨⟨by decide, by decide, by decide, by decide⟩,
    spec_C1_amended c1Doc "lobby" "gym" [some "kitchen", none, some "lobby"] (some "gym")
      (by decide) (by decide) (by decide) (by decide)⟩

/- ==========================================================================
   Lemmas about initMarkerVisibility (claim C2)
   ========================================================================== -/

/-- The g children of a marker group, the list the init loop partitions. -/
def childGroups (cs : List SvgChild) : List SvgChild :=
  cs.filter fun c => c.tagName = "g"

/-- The class assignment for the first g child. -/
def showChild (c : SvgChild) : SvgChild :=
  { c with childVisible := true, childHidden := false }

/-- The class assignment for every later g child. -/
def hideChild (c : SvgChild) : SvgChild :=
  { c with childHidden := true, childVisible := false }

@[simp]
theorem hideChild_tagName (c : SvgChild) : (hideChild c).tagName = c.tagName := rfl

@[simp]
theorem showChild_tagName (c : SvgChild) : (showChild c).tagName = c.tagName := rfl

theorem childGroups_initChildren_true (cs : List SvgChild) :
    childGroups (initChildren cs true) = (childGroups cs).map hideChild := by
  induction cs with
  | nil => rfl
  | cons c rest ih =>
    show childGroups
      (if c.tagName = "g" then
        if true = true then
          { c with childHidden := true, childVisible := false } :: initChildren rest true
        else
          { c with childVisible := true, childHidden := false } :: initChildren rest true
      else c :: initChildren rest true) = List.map hideChild (childGroups (c :: rest))
    by_cases hg : c.tagName = "g"
    · rw [if_pos hg, if_pos rfl]
      unfold childGroups at ih ⊢
      simp only [List.filter_cons]
      rw [if_pos (by simpa using hg), if_pos (by simpa using hg)]
      simp only [List.map_cons]
      exact congrArg _ ih
    · rw [if_neg hg]
      unfold childGroups at ih ⊢
      simp only [List.filter_cons]
      rw [if_neg (by simpa using hg), if_neg (by simpa using hg)]
      exact ih

theorem childGroups_initChildren_false (cs : List SvgChild) :
    childGroups (initChildren cs false)
      = ((childGroups cs).head?.map showChild).toList ++ ((childGroups cs).tail).map hideChild := by
  induction cs with
  | nil => rfl
  | cons c rest ih =>
    show childGroups
      (if c.tagName = "g" then
        if false = true then
          { c with childHidden := true, childVisible := false } :: initChildren rest true
        else
          { c with childVisible := true, childHidden := false } :: initChildren rest true
      else c :: initChildren rest false) = _
    by_cases hg : c.tagName = "g"
    · rw [if_pos hg, if_neg (by simp)]
      have hrec := childGroups_initChildren_true rest
      unfold childGroups at hrec ⊢
      simp only [List.filter_cons]
      rw [if_pos (by simpa using hg), if_pos (by simpa using hg)]
      simp only [List.head?_cons, List.tail_cons, Option.map_some, Option.toList_some,
        List.singleton_append]
      exact congrArg _ hrec
    · rw [if_neg hg]
      unfold childGroups at ih ⊢
      simp only [List.filter_cons]
      rw [if_neg (by simpa using hg), if_neg (by simpa using hg)]
      exact ih

theorem initChildren_idem (cs : List SvgChild) (b : Bool) :
    initChildren (initChildren cs b) b = initChildren cs b := by
  induction cs generalizing b with
  | nil => rfl
  | cons c rest ih =>
    by_cases hg : c.tagName = "g"
    · cases b with
      | true => simp [initChildren, hg, ih true]
      | false => simp [initChildren, hg, ih true]
    · simp [initChildren, hg, ih b]

/-- The per-group action of initMarkerVisibility. -/
def applyInitGroup (g : SvgGroup) : SvgGroup :=
  if g.tagName = "g" ∧ g.id ≠ buildingRoof then
    { g with markerClass := true, children := initChildren g.children false }
  else
    g

theorem initMarkerVisibility_eq_map (doc : MarkerDoc) :
    initMarkerVisibility doc = doc.map applyInitGroup := rfl

theorem applyInitGroup_applyInitGroup (g : SvgGroup) :
    applyInitGroup (applyInitGroup g) = applyInitGroup g := by
  by_cases hc : g.tagName = "g" ∧ g.id ≠ buildingRoof
  · simp [applyInitGroup, hc, initChildren_idem]
  · simp [applyInitGroup, hc]

theorem initMarkerVisibility_idem (doc : MarkerDoc) :
    initMarkerVisibility (initMarkerVisibility doc) = initMarkerVisibility doc := by
  simp only [initMarkerVisibility_eq_map, List.map_map]
  apply List.map_congr_left
  intro g _
  exact applyInitGroup_applyInitGroup g

theorem initMarkerVisibility_iterate (doc : MarkerDoc) (m : ℕ) :
    initMarkerVisibility^[m + 1] doc = initMarkerVisibility doc := by
  induction m with
  | zero => rfl
  | succ k ih =>
    rw [Function.iterate_succ_apply']
    rw [ih, initMarkerVisibility_idem]

/-- The C2 statement: after any positive number of initialize runs, every
marker group other than the roof carries the marker class, its first g
child is visible and not hidden, every later g child is hidden and not
visible; and a second run changes nothing. -/
def C2Claim (doc : MarkerDoc) (n : ℕ) : Prop :=
  (∀ g ∈ initMarkerVisibility^[n] doc, g.tagName = "g" → g.id ≠ buildingRoof →
      g.markerClass = true ∧
      (∀ ch, (childGroups g.children).head? = some ch →
          ch.childVisible = true ∧ ch.childHidden = false) ∧
      (∀ ch ∈ (childGroups g.children).tail,
          ch.childHidden = true ∧ ch.childVisible = false)) ∧
  initMarkerVisibility (initMarkerVisibility doc) = initMarkerVisibility doc

/-- C2, confirmed: initMarkerVisibility establishes the first-child-visible
partition on every non-roof marker group no matter how many times it runs,
and it is idempotent. -/
theorem spec_C2_init (doc : MarkerDoc) (n : ℕ) (hn : 1 ≤ n) : C2Claim doc n := by
  obtain ⟨m, rfl⟩ : ∃ m, n = m + 1 := ⟨n - 1, (Nat.succ_pred_eq_of_pos hn).symm⟩
  refine ⟨?_, initMarkerVisibility_idem doc⟩
  rw [initMarkerVisibility_iterate, initMarkerVisibility_eq_map]
  intro g hmem hg hroof
  obtain ⟨g₀, _, rfl⟩ := List.mem_map.mp hmem
  by_cases hman : g₀.tagName = "g" ∧ g₀.id ≠ buildingRoof
  · have hchildren : (applyInitGroup g₀).children = initChildren g₀.children false := by
      simp [applyInitGroup, hman]
    have hmarker : (applyInitGroup g₀).markerClass = true := by
      simp [applyInitGroup, hman]
    refine ⟨hmarker, ?_, ?_⟩
    · intro ch hch
      rw [hchildren, childGroups_initChildren_false] at hch
      cases hcg : childGroups g₀.children with
      | nil => rw [hcg] at hch; simp at hch
      | cons x xs =>
        rw [hcg] at hch
        simp at hch
        subst hch
        exact ⟨rfl, rfl⟩
    · intro ch hch
      rw [hchildren, childGroups_initChildren_false] at hch
      cases hcg : childGroups g₀.children with
      | nil => rw [hcg] at hch; simp at hch
      | cons x xs =>
        rw [hcg] at hch
        simp at hch
        obtain ⟨y, _, rfl⟩ := hch
        exact ⟨rfl, rfl⟩
  · rw [applyInitGroup] at hg hroof
    rw [if_neg hman] at hg hroof
    exact absurd ⟨hg, hroof⟩ hman

/-- A markers document used to instantiate the C2 theorem. -/
def c2Doc : MarkerDoc :=
  [⟨"lobby", "g", false, false,
      [⟨"g", false, false⟩, ⟨"g", true, false⟩, ⟨"text", false, false⟩]⟩,
   ⟨"school-roof", "g", false, false, [⟨"g", false, false⟩]⟩,
   ⟨"gym", "g", false, false, [⟨"path", false, false⟩, ⟨"g", false, false⟩]⟩]

theorem spec_C2_witness : 1 ≤ 2 ∧ C2Claim c2Doc 2 :=
  ⟨by decide, spec_C2_init c2Doc 2 (by decide)⟩

/- ==========================================================================
   Claims C3, C6, C9: handleMarkerClick
   ========================================================================== -/

/-- The amended C3 statement for a click on a known space with a non-empty
id while the markers document is loaded: the selection is recorded, the
overlay becomes visible with the marker image of that space as its data
source, the plain markers layer is hidden, the markers document is the
result of setActive(doc, id), and in it every other marker group is dimmed
while the clicked group is not. -/
def C3Claim (st : AppState) (sid : String) (sp : Space) (doc : MarkerDoc) : Prop :=
  (handleMarkerClick st sid).model.currentSpaceId = some sid ∧
  (handleMarkerClick st sid).view.overlay.isVisible = true ∧
  (handleMarkerClick st sid).view.overlay.dataAttr = some sp.markerImg ∧
  (handleMarkerClick st sid).view.markersLayerHidden = true ∧
  (handleMarkerClick st sid).view.markersDoc = some (updateMarkerVisibility doc (some sid)) ∧
  (∀ g ∈ updateMarkerVisibility doc (some sid), g.tagName = "g" →
      (g.id ≠ buildingRoof → g.id ≠ sid → g.dimmed = true) ∧
      (g.id = sid → g.id ≠ buildingRoof → g.dimmed = false))

/-- C3, corrected: the claimed end state of a marker click holds for every
space whose id is a non-empty string (the dimming pass treats an empty
active id as null, so a space with an empty id would select and show the
overlay without dimming the other markers). -/
theorem spec_C3_amended (st : AppState) (sid : String) (sp : Space) (doc : MarkerDoc)
    (hfound : st.model.getSpace sid = some sp) (hsid : sid ≠ "")
    (hdoc : st.view.markersDoc = some doc) : C3Claim st sid sp doc := by
  have hclick : handleMarkerClick st sid =
      { model := st.model.setCurrentSpace sid,
        view := viewUpdateMarkerVisibility (replaceLandingSvg st.view sp.markerImg) (some sid) } := by
    unfold handleMarkerClick
    rw [hfound]
  have hview : viewUpdateMarkerVisibility (replaceLandingSvg st.view sp.markerImg) (some sid)
      = { overlay := { isVisible := true, dataAttr := some sp.markerImg },
          markersLayerHidden := true,
          markersDoc := some (updateMarkerVisibility doc (some sid)) } := by
    unfold viewUpdateMarkerVisibility replaceLandingSvg
    simp [hdoc]
  refine ⟨?_, ?_, ?_, ?_, ?_, ?_⟩
  · rw [hclick]; rfl
  · rw [hclick, hview]
  · rw [hclick, hview]
  · rw [hclick, hview]
  · rw [hclick, hview]
  · intro g hmem hg
    constructor
    · intro hroof hne
      rw [dimmed_after_update hmem hg hroof]
      simp [dimClassFn, hsid, hne]
    · intro hid hroof
      rw [dimmed_after_update hmem hg hroof, hid]
      simp [dimClassFn]

/-- A model whose space list contains a space with an empty id, as the
data adapter produces for a fully non-alphanumeric display name. -/
def c3Model : ModelState :=
  { spaces :=
      [⟨"", "!!!", "sys", "m.svg", []⟩,
       ⟨"gym", "Gym", "sys", "gym.svg", []⟩],
    pageMetadata := none,
    currentSpaceId := none,
    currentTab := "overview",
    currentProductIndex := 0,
    markerData := [] }

/-- An application state holding that model and a loaded markers document
with two marker groups. -/
def c3State : AppState :=
  { model := c3Model,
    view :=
      { overlay := { isVisible := false, dataAttr := none },
        markersLayerHidden := false,
        markersDoc := some [⟨"gym", "g", false, false, []⟩, ⟨"", "g", false, false, []⟩] } }

/-- Counterexample to C3 as stated. The id of the first space is present
in the space list, the click selects it and shows the overlay, but no
other marker group is dimmed, because the empty id fails the truthiness
guard of the dimming pass. -/
theorem spec_C3_counterexample :
    c3Model.getSpace "" = some ⟨"", "!!!", "sys", "m.svg", []⟩ ∧
    (handleMarkerClick c3State "").model.currentSpaceId = some "" ∧
    (handleMarkerClick c3State "").view.overlay.isVisible = true ∧
    ((handleMarkerClick c3State "").view.markersDoc.map fun doc =>
        doc.all fun g => !g.dimmed) = some true := by
  decide

theorem spec_C3_witness :
    (c3State.model.getSpace "gym" = some ⟨"gym", "Gym", "sys", "gym.svg", []⟩ ∧
      ("gym" : String) ≠ "" ∧
      c3State.view.markersDoc = some [⟨"gym", "g", false, false, []⟩, ⟨"", "g", false, false, []⟩]) ∧
    C3Claim c3State "gym" ⟨"gym", "Gym", "sys", "gym.svg", []⟩
      [⟨"gym", "g", false, false, []⟩, ⟨"", "g", false, false, []⟩] :=
  ⟨⟨by decide, by decide, by decide⟩,
    spec_C3_amended c3State "gym" ⟨"gym", "Gym", "sys", "gym.svg", []⟩
      [⟨"gym", "g", false, false, []⟩, ⟨"", "g", false, false, []⟩]
      (by decide) (by decide) (by decide)⟩

/-- C6, confirmed: a marker click whose id misses the space list leaves
the whole application state untouched; the lookup yields none instead of
throwing, and the action is abandoned before any mutation. -/
theorem spec_C6_noop (st : AppState) (sid : String)
    (h : st.model.getSpace sid = none) : handleMarkerClick st sid = st := by
  unfold handleMarkerClick
  rw [h]

/-- A state used to instantiate the C6 theorem at a concrete unknown id. -/
def c6State : AppState :=
  { model :=
      { spaces := [⟨"gym", "Gym", "sys", "gym.svg", []⟩],
        pageMetadata := none,
        currentSpaceId := some "gym",
        currentTab := "system-equipment",
        currentProductIndex := 1,
        markerData := [] },
    view :=
      { overlay := { isVisible := true, dataAttr := some "gym.svg" },
        markersLayerHidden := true,
        markersDoc := some [⟨"gym", "g", true, false, []⟩] } }

theorem spec_C6_witness :
    c6State.model.getSpace "pool" = none ∧ handleMarkerClick c6State "pool" = c6State :=
  ⟨by decide, spec_C6_noop c6State "pool" (by decide)⟩

/-- C9, confirmed: on a known id, handleMarkerClick rewrites the model to
the same record with only currentSpaceId replaced; in particular the
current tab and the carousel index survive a change of selection. -/
theorem spec_C9_frame (st : AppState) (sid : String) (sp : Space)
    (h : st.model.getSpace sid = some sp) :
    (handleMarkerClick st sid).model = { st.model with currentSpaceId := some sid } ∧
    (handleMarkerClick st sid).model.currentTab = st.model.currentTab ∧
    (handleMarkerClick st sid).model.currentProductIndex = st.model.currentProductIndex ∧
    (handleMarkerClick st sid).model.spaces = st.model.spaces ∧
    (handleMarkerClick st sid).model.pageMetadata = st.model.pageMetadata ∧
    (handleMarkerClick st sid).model.markerData = st.model.markerData ∧
    (handleMarkerClick st sid).model.currentSpaceId = some sid := by
  have hclick : (handleMarkerClick st sid).model = st.model.setCurrentSpace sid := by
    unfold handleMarkerClick
    rw [h]
  rw [hclick]
  exact ⟨rfl, rfl, rfl, rfl, rfl, rfl, rfl⟩

theorem spec_C9_witness :
    c6State.model.getSpace "gym" = some ⟨"gym", "Gym", "sys", "gym.svg", []⟩ ∧
    ((handleMarkerClick c6State "gym").model
        = { c6State.model with currentSpaceId := some "gym" } ∧
      (handleMarkerClick c6State "gym").model.currentTab = c6State.model.currentTab ∧
      (handleMarkerClick c6State "gym").model.currentProductIndex
        = c6State.model.currentProductIndex ∧
      (handleMarkerClick c6State "gym").model.spaces = c6State.model.spaces ∧
      (handleMarkerClick c6State "gym").model.pageMetadata = c6State.model.pageMetadata ∧
      (handleMarkerClick c6State "gym").model.markerData = c6State.model.markerData ∧
      (handleMarkerClick c6State "gym").model.currentSpaceId = some "gym") :=
  ⟨by decide, spec_C9_frame c6State "gym" ⟨"gym", "Gym", "sys", "gym.svg", []⟩ (by decide)⟩

/- ==========================================================================
   Claim C5: carousel navigation
   ========================================================================== -/

/-- The amended C5 statement over the selected space: the exact wrap and
step values of next and prev, preservation of the index range by them,
and the behaviour of the direct go-to-index action, whose handler throws
a TypeError on the missing model property of the view and therefore never
changes the index. -/
def C5Claim (m : ModelState) (sp : Space) : Prop :=
  (m.currentProductIndex = (sp.systemEquipment.length : Int) - 1 →
      (nextProduct m).currentProductIndex = 0) ∧
  (0 ≤ m.currentProductIndex → m.currentProductIndex < (sp.systemEquipment.length : Int) - 1 →
      (nextProduct m).currentProductIndex = m.currentProductIndex + 1) ∧
  (0 ≤ m.currentProductIndex →
      0 ≤ (nextProduct m).currentProductIndex ∧
      (nextProduct m).currentProductIndex < (sp.systemEquipment.length : Int)) ∧
  (m.currentProductIndex = 0 →
      (prevProduct m).currentProductIndex = (sp.systemEquipment.length : Int) - 1) ∧
  (0 < m.currentProductIndex →
      (prevProduct m).currentProductIndex = m.currentProductIndex - 1) ∧
  (0 ≤ m.currentProductIndex → m.currentProductIndex < (sp.systemEquipment.length : Int) →
      0 ≤ (prevProduct m).currentProductIndex ∧
      (prevProduct m).currentProductIndex < (sp.systemEquipment.length : Int)) ∧
  (∀ j : Int, dotClick m j = (m, dotClickError))

/-- C5, corrected: whenever a space with a non-empty equipment list is
selected, next and prev wrap exactly as claimed and keep an in-range
index in range. The unconditional membership of the index in the range
does not hold, because changing the selection does not reset the index;
and the direct go-to-index action does not set the index at all, because
the dot handler dereferences a model property the view does not have and
throws before the assignment completes. -/
theorem spec_C5_amended (m : ModelState) (sp : Space)
    (hcur : m.getCurrentSpace = some sp) (hpos : 0 < sp.systemEquipment.length) :
    C5Claim m sp := by
  have hne : ¬(sp.systemEquipment.length = 0) := by omega
  have hnext : nextProduct m =
      { m with currentProductIndex :=
          if m.currentProductIndex + 1 ≥ (sp.systemEquipment.length : Int) then 0
          else m.currentProductIndex + 1 } := by
    unfold nextProduct
    simp only [hcur, if_neg hne]
  have hprev : prevProduct m =
      { m with currentProductIndex :=
          if m.currentProductIndex - 1 < 0 then (sp.systemEquipment.length : Int) - 1
          else m.currentProductIndex - 1 } := by
    unfold prevProduct
    simp only [hcur, if_neg hne]
  refine ⟨?_, ?_, ?_, ?_, ?_, ?_, fun j => rfl⟩
  · intro h
    rw [hnext]
    show (if m.currentProductIndex + 1 ≥ (sp.systemEquipment.length : Int) then 0
      else m.currentProductIndex + 1) = 0
    rw [if_pos (by omega)]
  · intro h0 h1
    rw [hnext]
    show (if m.currentProductIndex + 1 ≥ (sp.systemEquipment.length : Int) then 0
      else m.currentProductIndex + 1) = m.currentProductIndex + 1
    rw [if_neg (by omega)]
  · intro h0
    rw [hnext]
    show 0 ≤ (if m.currentProductIndex + 1 ≥ (sp.systemEquipment.length : Int) then 0
        else m.currentProductIndex + 1) ∧
      (if m.currentProductIndex + 1 ≥ (sp.systemEquipment.length : Int) then 0
        else m.currentProductIndex + 1) < (sp.systemEquipment.length : Int)
    split_ifs with h <;> omega
  · intro h
    rw [hprev]
    show (if m.currentProductIndex - 1 < 0 then (sp.systemEquipment.length : Int) - 1
      else m.currentProductIndex - 1) = (sp.systemEquipment.length : Int) - 1
    rw [if_pos (by omega)]
  · intro h
    rw [hprev]
    show (if m.currentProductIndex - 1 < 0 then (sp.systemEquipment.length : Int) - 1
      else m.currentProductIndex - 1) = m.currentProductIndex - 1
    rw [if_neg (by omega)]
  · intro h0 h1
    rw [hprev]
    show 0 ≤ (if m.currentProductIndex - 1 < 0 then (sp.systemEquipment.length : Int) - 1
        else m.currentProductIndex - 1) ∧
      (if m.currentProductIndex - 1 < 0 then (sp.systemEquipment.length : Int) - 1
        else m.currentProductIndex - 1) < (sp.systemEquipment.length : Int)
    split_ifs with h <;> omega

/-- A placeholder equipment item. -/
def eqItem (s : String) : EquipmentItem := ⟨s, s, s, s, s, s⟩

/-- A space with five equipment items. -/
def spaceA : Space :=
  ⟨"a", "A", "sys", "a.svg", [eqItem "1", eqItem "2", eqItem "3", eqItem "4", eqItem "5"]⟩

/-- A space with two equipment items. -/
def spaceB : Space := ⟨"b", "B", "sys", "b.svg", [eqItem "1", eqItem "2"]⟩

/-- An application state with space a selected. -/
def c5State : AppState :=
  { model :=
      { spaces := [spaceA, spaceB],
        pageMetadata := none,
        currentSpaceId := some "a",
        currentTab := "system-equipment",
        currentProductIndex := 0,
        markerData := [] },
    view :=
      { overlay := { isVisible := false, dataAttr := none },
        markersLayerHidden := false,
        markersDoc := some [] } }

/-- Counterexample to C5 as stated. Pressing next four times on the
five-item space a reaches index 4; clicking the two-item space b then
yields a state whose selected space has equipment length two while the
carousel index is still four, so the index is not always inside the
claimed interval. The last two conjuncts refute the go-to-index conjunct:
a dot click for index 3 leaves the index at 0 and its handler throws. -/
theorem spec_C5_counterexample :
    (nextProduct (nextProduct (nextProduct (nextProduct c5State.model)))).currentProductIndex
      = 4 ∧
    ((handleMarkerClick
        { model := nextProduct (nextProduct (nextProduct (nextProduct c5State.model))),
          view := c5State.view }
        "b").model.getCurrentSpace.map fun sp => sp.systemEquipment.length) = some 2 ∧
    (handleMarkerClick
        { model := nextProduct (nextProduct (nextProduct (nextProduct c5State.model))),
          view := c5State.view }
        "b").model.currentProductIndex = 4 ∧
    ¬((handleMarkerClick
        { model := nextProduct (nextProduct (nextProduct (nextProduct c5State.model))),
          view := c5State.view }
        "b").model.currentProductIndex < (2 : Int)) ∧
    (dotClick c5State.model 3).1.currentProductIndex = 0 ∧
    (dotClick c5State.model 3).2 = dotClickError := by
  exact ⟨by decide, by decide, by decide, by decide, by decide, rfl⟩

theorem spec_C5_witness :
    (c5State.model.getCurrentSpace = some spaceA ∧ 0 < spaceA.systemEquipment.length) ∧
    C5Claim c5State.model spaceA :=
  ⟨⟨by decide, by decide⟩, spec_C5_amended c5State.model spaceA (by decide) (by decide)⟩

/- ==========================================================================
   Claim C4: resolution order and binding
   ========================================================================== -/

theorem dynStep_bindings (acc : BindAcc) (e : SvgElem) :
    ∃ s, (dynStep acc e).bindings = acc.bindings ++ s := by
  unfold dynStep
  cases e.dataSpaceId with
  | none => exact ⟨[], by simp⟩
  | some v =>
    by_cases hv : v = ""
    · exact ⟨[], by simp [hv]⟩
    · exact ⟨[(e.key, v)], by simp [hv]⟩

theorem spaceStep_bindings (doc : List SvgElem) (acc : BindAcc) (s : Space) :
    ∃ t, (spaceStep doc acc s).bindings = acc.bindings ++ t := by
  unfold spaceStep
  cases resolveSpaceElement doc s.id with
  | none => exact ⟨[], by simp⟩
  | some el =>
    by_cases hk : el.key ∈ acc.processed
    · exact ⟨[], by simp [hk]⟩
    · exact ⟨[(el.key, s.id)], by simp [hk]⟩

theorem foldl_dynStep_bindings (l : List SvgElem) (acc : BindAcc) :
    ∃ t, (l.foldl dynStep acc).bindings = acc.bindings ++ t := by
  induction l generalizing acc with
  | nil => exact ⟨[], (List.append_nil _).symm⟩
  | cons e l ih =>
    rw [List.foldl_cons]
    obtain ⟨t, ht⟩ := ih (dynStep acc e)
    obtain ⟨s, hs⟩ := dynStep_bindings acc e
    exact ⟨s ++ t, by rw [ht, hs, List.append_assoc]⟩

theorem foldl_spaceStep_bindings (doc : List SvgElem) (l : List Space) (acc : BindAcc) :
    ∃ t, (l.foldl (spaceStep doc) acc).bindings = acc.bindings ++ t := by
  induction l generalizing acc with
  | nil => exact ⟨[], (List.append_nil _).symm⟩
  | cons s l ih =>
    rw [List.foldl_cons]
    obtain ⟨t, ht⟩ := ih (spaceStep doc acc s)
    obtain ⟨u, hu⟩ := spaceStep_bindings doc acc s
    exact ⟨u ++ t, by rw [ht, hu, List.append_assoc]⟩

theorem mem_foldl_dynStep {e : SvgElem} {v : String} (l : List SvgElem) (acc : BindAcc)
    (he : e ∈ l) (hv : e.dataSpaceId = some v) (hv0 : v ≠ "") :
    (e.key, v) ∈ (l.foldl dynStep acc).bindings := by
  induction l generalizing acc with
  | nil => cases he
  | cons a l ih =>
    rw [List.foldl_cons]
    rcases List.mem_cons.mp he with rfl | hmem
    · obtain ⟨t, ht⟩ := foldl_dynStep_bindings l (dynStep acc e)
      rw [ht]
      apply List.mem_append_left
      unfold dynStep
      rw [hv]
      simp [hv0]
    · exact ih (dynStep acc a) hmem

theorem mem_dynStep_bindings_src {p : Nat × String} {acc : BindAcc} {a : SvgElem}
    (hp : p ∈ (dynStep acc a).bindings) :
    p ∈ acc.bindings ∨ (a.dataSpaceId = some p.2 ∧ p.2 ≠ "" ∧ p.1 = a.key) := by
  unfold dynStep at hp
  cases hd : a.dataSpaceId with
  | none =>
    rw [hd] at hp
    exact Or.inl hp
  | some v =>
    rw [hd] at hp
    by_cases hv : v = ""
    · simp only [hv, if_pos rfl] at hp
      exact Or.inl hp
    · simp only [if_neg hv] at hp
      rcases List.mem_append.mp hp with hp | hp
      · exact Or.inl hp
      · simp only [List.mem_singleton] at hp
        subst hp
        exact Or.inr ⟨rfl, hv, rfl⟩

theorem mem_spaceStep_bindings_src {doc : List SvgElem} {p : Nat × String} {acc : BindAcc}
    {s : Space} (hp : p ∈ (spaceStep doc acc s).bindings) :
    p ∈ acc.bindings ∨ ∃ el, resolveSpaceElement doc s.id = some el ∧ p = (el.key, s.id) := by
  unfold spaceStep at hp
  cases hr : resolveSpaceElement doc s.id with
  | none =>
    rw [hr] at hp
    exact Or.inl hp
  | some el =>
    rw [hr] at hp
    by_cases hk : el.key ∈ acc.processed
    · simp only [if_pos hk] at hp
      exact Or.inl hp
    · simp only [if_neg hk] at hp
      rcases List.mem_append.mp hp with hp | hp
      · exact Or.inl hp
      · simp only [List.mem_singleton] at hp
        exact Or.inr ⟨el, rfl, hp⟩

theorem mem_foldl_dynStep_bindings_src {p : Nat × String} (l : List SvgElem) (acc : BindAcc)
    (h : p ∈ (l.foldl dynStep acc).bindings) :
    p ∈ acc.bindings ∨ ∃ e ∈ l, e.dataSpaceId = some p.2 ∧ p.2 ≠ "" ∧ p.1 = e.key := by
  induction l generalizing acc with
  | nil => exact Or.inl h
  | cons a l ih =>
    rw [List.foldl_cons] at h
    rcases ih (dynStep acc a) h with hp | ⟨e, hmem, he⟩
    · rcases mem_dynStep_bindings_src hp with hp | hsrc
      · exact Or.inl hp
      · exact Or.inr ⟨a, List.mem_cons_self a l, hsrc⟩
    · exact Or.inr ⟨e, List.mem_cons_of_mem a hmem, he⟩

theorem mem_foldl_spaceStep_bindings_src {doc : List SvgElem} {p : Nat × String}
    (l : List Space) (acc : BindAcc) (h : p ∈ (l.foldl (spaceStep doc) acc).bindings) :
    p ∈ acc.bindings ∨
      ∃ s ∈ l, ∃ el, resolveSpaceElement doc s.id = some el ∧ p = (el.key, s.id) := by
  induction l generalizing acc with
  | nil => exact Or.inl h
  | cons s l ih =>
    rw [List.foldl_cons] at h
    rcases ih (spaceStep doc acc s) h with hp | ⟨s2, hmem, he⟩
    · rcases mem_spaceStep_bindings_src hp with hp | ⟨el, hr, hpe⟩
      · exact Or.inl hp
      · exact Or.inr ⟨s, List.mem_cons_self s l, el, hr, hpe⟩
    · exact Or.inr ⟨s2, List.mem_cons_of_mem s hmem, he⟩

/-- The amended C4 statement: the attribute pass binds every element with
a truthy data-space-id to its attribute value; a space that resolves by no
strategy and is named by no attribute contributes no binding; and the
per-space resolution tries the exact id lookup before the singular
fallback, which runs only for ids ending in the plural suffix. -/
def C4Claim (doc : List SvgElem) (spaces : List Space) (e : SvgElem) (v : String)
    (s : Space) : Prop :=
  (e.key, v) ∈ attachSvgHandlers doc spaces ∧
  (∀ p ∈ attachSvgHandlers doc spaces, p.2 ≠ s.id) ∧
  (∀ sid el, getById doc sid = some el → resolveSpaceElement doc sid = some el) ∧
  (∀ sid el, getById doc sid = none → findGroupById doc sid = some el →
      resolveSpaceElement doc sid = some el) ∧
  (∀ sid, lookupById doc sid = none → endsInS sid = true →
      resolveSpaceElement doc sid = lookupById doc (dropLastChar sid)) ∧
  (∀ sid, lookupById doc sid = none → endsInS sid = false →
      resolveSpaceElement doc sid = none)

/-- C4, corrected: the attribute-based strategy runs first over the whole
document and wins over the exact id match; within the id-based pass the
exact lookup precedes the singular fallback; an id that no strategy
resolves is bound to nothing, without an error. -/
theorem spec_C4_amended (doc : List SvgElem) (spaces : List Space) (e : SvgElem)
    (v : String) (s : Space) (he : e ∈ doc) (hv : e.dataSpaceId = some v) (hv0 : v ≠ "")
    (_hs : s ∈ spaces) (hres : resolveSpaceElement doc s.id = none)
    (hnoattr : ∀ e2 ∈ doc, e2.dataSpaceId ≠ some s.id) :
    C4Claim doc spaces e v s := by
  refine ⟨?_, ?_, ?_, ?_, ?_, ?_⟩
  · unfold attachSvgHandlers spacesPass
    obtain ⟨t, ht⟩ := foldl_spaceStep_bindings doc spaces (dynamicPass doc)
    rw [ht]
    apply List.mem_append_left
    exact mem_foldl_dynStep doc _ he hv hv0
  · intro p hp
    unfold attachSvgHandlers spacesPass at hp
    rcases mem_foldl_spaceStep_bindings_src spaces (dynamicPass doc) hp with hp | ⟨s2, _, el, hr, rfl⟩
    · unfold dynamicPass at hp
      rcases mem_foldl_dynStep_bindings_src doc _ hp with hp | ⟨e2, hmem, he2, hne, _⟩
      · cases hp
      · intro hps
        exact hnoattr e2 hmem (hps ▸ he2)
    · intro hps
      simp only at hps
      rw [hps] at hr
      rw [hres] at hr
      cases hr
  · intro sid el hget
    unfold resolveSpaceElement lookupById
    rw [hget]
  · intro sid el hget hfind
    unfold resolveSpaceElement lookupById
    rw [hget, hfind]
  · intro sid hlook hends
    unfold resolveSpaceElement
    rw [hlook, if_pos hends]
  · intro sid hlook hends
    unfold resolveSpaceElement
    rw [hlook, if_neg (by simp [hends])]

/-- A markers document with one g element that carries both an id equal to
one space id and a data-space-id attribute naming another. -/
def c4Doc : List SvgElem := [⟨0, "gym", "g", some "lobby"⟩]

/-- The space list for the C4 counterexample. -/
def c4Spaces : List Space :=
  [⟨"gym", "Gym", "sys", "gym.svg", []⟩, ⟨"lobby", "Lobby", "sys", "lobby.svg", []⟩]

/-- Counterexample to C4 as stated. The element with id gym also carries
data-space-id lobby; the claimed order (exact id first) would bind it to
gym, but the source runs the attribute pass first, so the element is
bound to lobby and nothing is ever bound to gym. -/
theorem spec_C4_counterexample :
    getById c4Doc "gym" = some ⟨0, "gym", "g", some "lobby"⟩ ∧
    attachSvgHandlers c4Doc c4Spaces = [(0, "lobby")] ∧
    ∀ p ∈ attachSvgHandlers c4Doc c4Spaces, p.2 ≠ "gym" := by
  decide

/-- The document for the C4 witness. -/
def c4WDoc : List SvgElem :=
  [⟨0, "lab", "g", some "science-lab"⟩, ⟨1, "classroom", "g", none⟩]

/-- The space list for the C4 witness; the last space resolves by no
strategy. -/
def c4WSpaces : List Space :=
  [⟨"classrooms", "Classrooms", "sys", "c.svg", []⟩, ⟨"pools", "Pools", "sys", "p.svg", []⟩]

theorem spec_C4_witness :
    ((⟨0, "lab", "g", some "science-lab"⟩ : SvgElem) ∈ c4WDoc ∧
      (⟨0, "lab", "g", some "science-lab"⟩ : SvgElem).dataSpaceId = some "science-lab" ∧
      ("science-lab" : String) ≠ "" ∧
      (⟨"pools", "Pools", "sys", "p.svg", []⟩ : Space) ∈ c4WSpaces ∧
      resolveSpaceElement c4WDoc "pools" = none ∧
      (∀ e2 ∈ c4WDoc, e2.dataSpaceId ≠ some "pools")) ∧
    C4Claim c4WDoc c4WSpaces ⟨0, "lab", "g", some "science-lab"⟩ "science-lab"
      ⟨"pools", "Pools", "sys", "p.svg", []⟩ :=
  ⟨⟨by decide, by decide, by decide, by decide, by decide, by decide⟩,
    spec_C4_amended c4WDoc c4WSpaces ⟨0, "lab", "g", some "science-lab"⟩ "science-lab"
      ⟨"pools", "Pools", "sys", "p.svg", []⟩
      (by decide) (by decide) (by decide) (by decide) (by decide) (by decide)⟩

/- ==========================================================================
   Claim C7: id generation
   ========================================================================== -/

/-- No two adjacent hyphens. -/
def NoDoubleHyphen (x y : Char) : Prop := ¬(x = '-' ∧ y = '-')

theorem isSlugChar_ne_hyphen {c : Char} (h : isSlugChar c = true) : c ≠ '-' := by
  intro hc
  subst hc
  simp [isSlugChar] at h

theorem collapseRuns_true_head {l : List Char} {c : Char}
    (h : (collapseRuns true l).head? = some c) : isSlugChar c = true := by
  induction l with
  | nil => cases h
  | cons a rest ih =>
    by_cases ha : isSlugChar a
    · unfold collapseRuns at h
      rw [if_pos ha] at h
      simp only [List.head?_cons, Option.some.injEq] at h
      subst h
      exact ha
    · unfold collapseRuns at h
      rw [if_neg ha, if_pos rfl] at h
      exact ih h

theorem collapseRuns_chain (l : List Char) (b : Bool) :
    List.Chain' NoDoubleHyphen (collapseRuns b l) := by
  induction l generalizing b with
  | nil => exact List.chain'_nil
  | cons a rest ih =>
    by_cases ha : isSlugChar a
    · unfold collapseRuns
      rw [if_pos ha]
      refine List.chain'_cons'.mpr ⟨?_, ih false⟩
      intro y _
      exact fun hxy => isSlugChar_ne_hyphen ha hxy.1
    · unfold collapseRuns
      rw [if_neg ha]
      cases b with
      | true =>
        rw [if_pos rfl]
        exact ih true
      | false =>
        rw [if_neg (by simp)]
        refine List.chain'_cons'.mpr ⟨?_, ih true⟩
        intro y hy
        exact fun hxy => isSlugChar_ne_hyphen (collapseRuns_true_head hy) hxy.2

theorem dropWhile_eq_removeLeadingHyphen {l : List Char}
    (h : List.Chain' NoDoubleHyphen l) :
    (l.dropWhile fun c => c = '-') = removeLeadingHyphen l := by
  cases l with
  | nil => rfl
  | cons a t =>
    by_cases ha : a = '-'
    · subst ha
      rw [List.dropWhile_cons]
      rw [if_pos (by simp)]
      show _ = t
      cases t with
      | nil => rfl
      | cons b t2 =>
        have hb : b ≠ '-' := by
          have := (List.chain'_cons'.mp h).1 b (by simp)
          exact fun hbe => this ⟨rfl, hbe⟩
        rw [List.dropWhile_cons, if_neg (by simpa using hb)]
    · rw [List.dropWhile_cons, if_neg (by simpa using ha)]
      show _ = removeLeadingHyphen (a :: t)
      unfold removeLeadingHyphen
      cases t with
      | nil => simp [ha]
      | cons b t2 =>
        cases hmatch : a :: b :: t2 with
        | nil => cases hmatch
        | cons x xs => simp_all [List.cons.injEq]

theorem removeLeadingHyphen_eq_or_tail (l : List Char) :
    removeLeadingHyphen l = l ∨ removeLeadingHyphen l = l.tail := by
  cases l with
  | nil => exact Or.inl rfl
  | cons a t =>
    by_cases ha : a = '-'
    · subst ha
      exact Or.inr rfl
    · left
      unfold removeLeadingHyphen
      cases hmatch : a :: t with
      | nil => cases hmatch
      | cons x xs => simp_all [List.cons.injEq]

theorem chain_removeLeadingHyphen {l : List Char} (h : List.Chain' NoDoubleHyphen l) :
    List.Chain' NoDoubleHyphen (removeLeadingHyphen l) := by
  rcases removeLeadingHyphen_eq_or_tail l with he | he <;> rw [he]
  · exact h
  · exact h.tail

theorem chain_reverse_of_chain {l : List Char} (h : List.Chain' NoDoubleHyphen l) :
    List.Chain' NoDoubleHyphen l.reverse := by
  rw [List.chain'_reverse]
  exact h.imp fun a b hab => fun hfl => hab ⟨hfl.2, hfl.1⟩

theorem specTrimHyphens_eq_trimEdgeHyphens {l : List Char}
    (h : List.Chain' NoDoubleHyphen l) : specTrimHyphens l = trimEdgeHyphens l := by
  unfold specTrimHyphens trimEdgeHyphens
  rw [dropWhile_eq_removeLeadingHyphen h]
  rw [dropWhile_eq_removeLeadingHyphen
    (chain_reverse_of_chain (chain_removeLeadingHyphen h))]

/-- True exactly when the name produces the one slug that hits the
prototype chain of the override table. -/
def slugHitsPrototype (name : Option String) : Bool :=
  match name with
  | none => false
  | some s => if s = "" then false else rawSlug s = "constructor"

/-- The C7 statement as the code supports it: wherever the slug misses
the prototype chain, the source id generation agrees with the slug rule
as the spec words it and yields a string; at the failing input
Constructor the source instead returns the inherited Object constructor,
a non-string, while the stated rule yields the id constructor; and the
three examples of the claim hold. -/
def C7Claim (name : Option String) : Prop :=
  generateId name = .str (specGenerateId name) ∧
  generateId (some "Constructor") = .objectConstructorFn ∧
  (∀ s : String, GeneratedId.objectConstructorFn ≠ GeneratedId.str s) ∧
  specGenerateId (some "Constructor") = "constructor" ∧
  generateId (some "Science Lab") = .str "science-lab" ∧
  generateId (some "School Gym") = .str "gym" ∧
  generateId none = .str "unknown-space" ∧
  generateId (some "") = .str "unknown-space"

/-- C7, code bug. The claim states the intended rule, and the source
follows it on every name whose slug is not the word constructor (the
one-hyphen edge trim of the source coincides with trimming all edge
hyphens because the collapse step never emits adjacent hyphens); but the
override lookup SPACE_ID_OVERRIDES[slug] reads through the prototype
chain of the object literal, so the name Constructor makes generateId
return the inherited Object constructor function instead of the slug. -/
theorem spec_C7_generateId (name : Option String)
    (h : slugHitsPrototype name = false) : C7Claim name := by
  refine ⟨?_, by decide, ?_, by decide, by decide, by decide, by decide, by decide⟩
  · cases name with
    | none => rfl
    | some s =>
      by_cases hs : s = ""
      · subst hs
        rfl
      · have hslug : ¬(rawSlug s = "constructor") := by
          simpa [slugHitsPrototype, hs] using h
        show (if s = "" then GeneratedId.str "unknown-space" else generateIdStr s)
          = .str (if s = "" then "unknown-space"
              else specApplyOverrides
                (String.mk (specTrimHyphens (collapseRuns false (s.data.map Char.toLower)))))
        rw [if_neg hs, if_neg hs]
        unfold generateIdStr
        have hspec : String.mk (specTrimHyphens (collapseRuns false (s.data.map Char.toLower)))
            = rawSlug s := by
          unfold rawSlug
          rw [specTrimHyphens_eq_trimEdgeHyphens (collapseRuns_chain _ false)]
        rw [hspec]
        unfold applyOverrides specApplyOverrides
        by_cases hg : rawSlug s = "school-gym"
        · rw [if_pos hg, if_pos hg]
        · rw [if_neg hg, if_neg hg, if_neg hslug]
  · intro s2 h2
    exact GeneratedId.noConfusion h2

theorem spec_C7_witness :
    slugHitsPrototype (some "Science Lab") = false ∧ C7Claim (some "Science Lab") :=
  ⟨by decide, spec_C7_generateId (some "Science Lab") (by decide)⟩

/- ==========================================================================
   Claims C8 and C10: the transform under malformed and oversized input
   ========================================================================== -/

/-- The tail of the transform once the root element has been read. -/
def transformRoot (root : JSVal) : Except String JSVal := do
  let pageMetadata ← transformPageMetadata root
  let spacesField ← getField root "Spaces"
  let spaces ← transformSpaces spacesField
  .ok (.obj [("pageMetadata", pageMetadata), ("spaces", spaces)])

theorem transformBody_value_arr_cons (x : JSVal) (xs : List JSVal)
    (fs : List (String × JSVal)) :
    transformBody (.obj (("value", .arr (x :: xs)) :: fs)) = transformRoot x := by
  unfold transformBody transformRoot
  simp [truthy, getField, getIndex, jsStrictEqZero, Bind.bind, Except.bind]
  intro h
  omega

/-- C10, confirmed: the transform of a response whose value array has a
first element x and any further elements equals the transform of the same
response with value = [x]; everything after the first element is ignored. -/
theorem spec_C10_first_element (x : JSVal) (rest : List JSVal)
    (fs : List (String × JSVal)) :
    transform (.obj (("value", .arr (x :: rest)) :: fs))
      = transform (.obj (("value", .arr [x]) :: fs)) := by
  unfold transform
  rw [transformBody_value_arr_cons x rest fs, transformBody_value_arr_cons x [] fs]

@[simp]
theorem truthy_obj (fields : List (String × JSVal)) : truthy (.obj fields) = true := rfl

@[simp]
theorem truthy_arr (elems : List JSVal) : truthy (.arr elems) = true := rfl

theorem mapExcept_transformSpace_null (pre post : List JSVal) :
    ∃ msg, mapExcept transformSpace (pre ++ JSVal.null :: post) = .error msg := by
  induction pre with
  | nil => exact ⟨"TypeError: cannot read Title of null", rfl⟩
  | cons x pre ih =>
    obtain ⟨msg, hmsg⟩ := ih
    cases hx : transformSpace x with
    | error e => exact ⟨e, by simp [mapExcept, hx, Bind.bind, Except.bind]⟩
    | ok y => exact ⟨msg, by simp [mapExcept, hx, hmsg, Bind.bind, Except.bind]⟩

/-- The amended C8 statement: the transform is total for its caller; null,
undefined, an object without a value property, a falsy value property and
an empty value array all produce exactly the empty structure; a space
entry whose member access throws (null) does too; and the single fetch
fails closed to the same empty structure on a network error, a non-ok
response and a JSON parse failure, while a successful fetch hands the body
to the transform. -/
def C8Claim (r v : JSVal) (fs : List (String × JSVal)) (pre post : List JSVal)
    (m e : String) (j : Except String JSVal) (raw : JSVal) : Prop :=
  (transform r = emptyStructure ∨ transformBody r = .ok (transform r)) ∧
  transform .null = emptyStructure ∧
  transform .undefined = emptyStructure ∧
  transform (.obj []) = emptyStructure ∧
  transform (.obj (("value", v) :: fs)) = emptyStructure ∧
  transform (.obj (("value", .arr []) :: fs)) = emptyStructure ∧
  transform (.obj [("value",
      .arr [.obj [("Spaces", .arr (pre ++ JSVal.null :: post))]])]) = emptyStructure ∧
  fetchData (.networkError m) = emptyStructure ∧
  fetchData (.response false j) = emptyStructure ∧
  fetchData (.response true (.error e)) = emptyStructure ∧
  fetchData (.response true (.ok raw)) = transform raw

/-- C8, corrected: every failure path of the transform and of the single
startup fetch degrades to the empty structure and nothing is thrown to
the caller; however, this covers only malformed inputs on which a member
access throws or the guard fires, because a malformed space entry whose
member accesses merely yield undefined is transformed into a default
filled space object instead of the empty structure. -/
theorem spec_C8_amended (r v : JSVal) (fs : List (String × JSVal)) (pre post : List JSVal)
    (m e : String) (j : Except String JSVal) (raw : JSVal) (hv : truthy v = false) :
    C8Claim r v fs pre post m e j raw := by
  refine ⟨?_, rfl, rfl, rfl, ?_, ?_, ?_, rfl, rfl, rfl, rfl⟩
  · cases htb : transformBody r with
    | error err =>
      left
      unfold transform
      rw [htb]
    | ok val =>
      right
      unfold transform
      rw [htb]
  · unfold transform transformBody
    simp [getField, hv, Bind.bind, Except.bind]
  · unfold transform transformBody
    simp [getField, jsStrictEqZero, Bind.bind, Except.bind]
  · obtain ⟨msg, hmsg⟩ := mapExcept_transformSpace_null pre post
    have hroot : transformRoot (JSVal.obj [("Spaces", JSVal.arr (pre ++ JSVal.null :: post))])
        = .error msg := by
      unfold transformRoot
      simp [transformPageMetadata, firstOrEmptyObj, transformActions, getField, truthy,
        jsOr, jsGtZero, transformSpaces, hmsg, Bind.bind, Except.bind]
    unfold transform
    rw [transformBody_value_arr_cons, hroot]

/-- Recognises the minimal valid structure. -/
def isEmptyStructure (v : JSVal) : Bool :=
  match v with
  | .obj [("pageMetadata", .obj []), ("spaces", .arr [])] => true
  | _ => false

/-- The length of the spaces array of a transform result. -/
def spacesCount (v : JSVal) : Option Nat :=
  match v with
  | .obj fields =>
    match fields.find? fun f => f.1 = "spaces" with
    | some (_, .arr xs) => some xs.length
    | _ => none
  | _ => none

/-- Counterexample to C8 as stated. The response contains one malformed
space entry (the number five); every member access on it yields undefined
rather than throwing, so the transform returns a populated structure with
one default filled space, not the empty structure the claim requires for
malformed space entries. -/
theorem spec_C8_counterexample :
    isEmptyStructure (transform (.obj [("value",
        .arr [.obj [("Spaces", .arr [.num 5])]])])) = false ∧
    spacesCount (transform (.obj [("value",
        .arr [.obj [("Spaces", .arr [.num 5])]])])) = some 1 ∧
    isEmptyStructure emptyStructure = true := by
  exact ⟨rfl, rfl, rfl⟩

theorem spec_C8_witness :
    truthy JSVal.null = false ∧
    C8Claim (JSVal.str "x") JSVal.null [("other", JSVal.num 1)] [JSVal.obj []] [JSVal.undefined]
      "network down" "bad json" (.error "parse") (JSVal.obj []) :=
  ⟨rfl,
    spec_C8_amended (JSVal.str "x") JSVal.null [("other", JSVal.num 1)] [JSVal.obj []]
      [JSVal.undefined] "network down" "bad json" (.error "parse") (JSVal.obj []) rfl⟩
